import Mathlib

/-!
Verification of the switchbot-go client library core:
request signing, nonce generation (UUIDv7), response classification and
error model, shallowly embedded from the Go source.
-/

namespace SwitchBot

/-- Wire response envelope (`Response` in client.go): application status code,
message, and raw body bytes (modelled as a string of bytes). -/
structure Response where
  statusCode : Int
  message : String
  body : String
deriving Repr, DecidableEq

/-- `APIError` from errors.go: body, message, optional underlying cause
(modelled as the cause's message string), and status code. -/
structure APIError where
  body : String
  message : String
  err : Option String
  statusCode : Int
deriving Repr, DecidableEq

/-- `isEmptyJSONBody` from utils.go: true iff the body has zero length,
or is exactly the empty-object literal, or exactly the null literal. -/
def isEmptyJSONBody (body : String) : Bool :=
  body.length == 0 || body == "\x7b\x7d" || body == "null"

/-- `APIError.Error` from errors.go: renders status code and message, appends
the body only when it is not empty per `isEmptyJSONBody`, and appends the
cause parenthetically when present. -/
def APIError.errorString (e : APIError) : String :=
  let sb := s!"SwitchBot API error: statusCode={e.statusCode}, message=\x27{e.message}\x27"
  let sb := if isEmptyJSONBody e.body then sb else sb ++ s!", body={e.body}"
  match e.err with
  | some c => sb ++ s!" (caused by: {c})"
  | none => sb

/-- Outcome of `doRequest`: a successful envelope, an `APIError`, or a plain
(non-`APIError`) error carrying only a message. -/
inductive DoResult where
  | ok (resp : Response)
  | apiErr (e : APIError)
  | plainErr (msg : String)
deriving Repr, DecidableEq

/-- The fixed set of known non-100 application error codes from
`doRequest` (client.go): 151 device type error, 152 device not found,
160 command not supported, 161 device offline, 171 hub offline,
190 internal error / invalid command format. -/
def knownErrorCodes (c : Int) : Bool :=
  c == 151 || c == 152 || c == 160 || c == 161 || c == 171 || c == 190

/-- An HTTP transport response: status code and raw body bytes. -/
structure HttpResponse where
  status : Int
  body : String
deriving Repr, DecidableEq

/-- The response-handling tail of `doRequest` (client.go): decode the body
as a `Response` envelope; on decode failure synthesize an `APIError` when the
transport status is at least 400, otherwise a plain error; on success raise
an `APIError` for known non-100 application codes, then for transport
status at least 400 (with the message defaulted when empty), and otherwise
return the envelope. The transport call itself is an external collaborator,
so its outcome is a parameter; a transport failure is a plain error. -/
def doRequest (transportResult : Except String HttpResponse)
    (jsonDecoder : String → Except String Response) : DoResult :=
  match transportResult with
  | .error e => .plainErr s!"failed to execute request: {e}"
  | .ok resp =>
    match jsonDecoder resp.body with
    | .error decodeErr =>
      if resp.status ≥ 400 then
        .apiErr { statusCode := resp.status
                  message := s!"Received HTTP {resp.status} error with unparsable body"
                  body := resp.body
                  err := some decodeErr }
      else
        .plainErr s!"failed to unmarshal successful response (HTTP {resp.status}) body: {decodeErr}, body: {resp.body}"
    | .ok apiResp =>
      if apiResp.statusCode ≠ 100 ∧ knownErrorCodes apiResp.statusCode then
        .apiErr { statusCode := apiResp.statusCode
                  message := apiResp.message
                  body := apiResp.body
                  err := some s!"received API status code {apiResp.statusCode}" }
      else if resp.status ≥ 400 then
        .apiErr { statusCode := resp.status
                  message := if apiResp.message = "" then
                      s!"Received HTTP {resp.status} error"
                    else apiResp.message
                  body := apiResp.body
                  err := some s!"received HTTP status code {resp.status}" }
      else
        .ok apiResp

/-- Lowercase hexadecimal digit character for a value below 16,
as produced by Go's `%x` formatting verb. -/
def hexChar (n : Nat) : Char :=
  if n < 10 then Char.ofNat (48 + n) else Char.ofNat (87 + n)

/-- Two lowercase hex digits for one byte, as `%x` prints each byte. -/
def byteToHex (b : Nat) : List Char :=
  [hexChar (b / 16), hexChar (b % 16)]

/-- Hex rendering of a byte slice, as Go's `%x` on `[]byte`. -/
def bytesToHexChars (bs : List Nat) : List Char :=
  (bs.map byteToHex).flatten

/-- Big-endian 6-byte encoding of a natural number, as
`big.Int.FillBytes` writes a millisecond timestamp into `value[0:6]`. -/
def bigEndian6 (ts : Nat) : List Nat :=
  [ts / 2 ^ 40 % 256, ts / 2 ^ 32 % 256, ts / 2 ^ 24 % 256,
   ts / 2 ^ 16 % 256, ts / 2 ^ 8 % 256, ts % 256]

/-- Value of a 6-byte big-endian sequence. -/
def beVal6 : List Nat → Nat
  | [x0, x1, x2, x3, x4, x5] =>
      x0 * 2 ^ 40 + x1 * 2 ^ 32 + x2 * 2 ^ 24 + x3 * 2 ^ 16 + x4 * 2 ^ 8 + x5
  | _ => 0

/-- The in-place byte edits of `getUUIDv7` (utils.go): overwrite bytes 0-5
with the big-endian millisecond timestamp, set the high nibble of byte 6 to
0111 (version 7), and the top two bits of byte 8 to 10 (variant). Inputs of
a length other than 16 never occur (`rand.Read` fills exactly 16 bytes). -/
def uuidV7Transform (ts : Nat) : List Nat → List Nat
  | [_, _, _, _, _, _, b6, b7, b8, b9, b10, b11, b12, b13, b14, b15] =>
      bigEndian6 ts ++
        [(b6 &&& 15) ||| 112, b7, (b8 &&& 63) ||| 128,
         b9, b10, b11, b12, b13, b14, b15]
  | other => other

/-- `getUUIDv7` (utils.go): read 16 random bytes — failure of the secure
random source is propagated, no fallback — then apply the timestamp,
version and variant overwrites. The random read and the clock are the
effect parameters of the embedding. -/
def getUUIDv7 (randResult : Except String (List Nat)) (nowMilli : Nat) :
    Except String (List Nat) :=
  match randResult with
  | .error e => .error e
  | .ok bytes => .ok (uuidV7Transform nowMilli bytes)

/-- The `8-4-4-4-12` hyphenated grouping of `uuidV7Format`
(`"%x-%x-%x-%x-%x"` over `value[:4]`, `value[4:6]`, `value[6:8]`,
`value[8:10]`, `value[10:]`). -/
def uuidChars (v : List Nat) : List Char :=
  bytesToHexChars (v.take 4) ++ ['-'] ++
  bytesToHexChars ((v.drop 4).take 2) ++ ['-'] ++
  bytesToHexChars ((v.drop 6).take 2) ++ ['-'] ++
  bytesToHexChars ((v.drop 8).take 2) ++ ['-'] ++
  bytesToHexChars (v.drop 10)

/-- `getUUIDv7String` (utils.go): format the UUIDv7 value, propagating any
random-source failure. -/
def getUUIDv7String (randResult : Except String (List Nat)) (nowMilli : Nat) :
    Except String String :=
  match getUUIDv7 randResult nowMilli with
  | .error e => .error e
  | .ok v => .ok (String.mk (uuidChars v))

/-- `generateTimestamp` (auth.go): decimal rendering of the millisecond
clock. -/
def generateTimestamp (nowMilli : Int) : String :=
  toString nowMilli

/-- `generateNonce` (auth.go): calls `getUUIDv7String` and discards its
error with `uuid, _ :=`, so a random-source failure yields the empty
string rather than a propagated error. -/
def generateNonce (randResult : Except String (List Nat)) (nowMilli : Nat) :
    String :=
  match getUUIDv7String randResult nowMilli with
  | .error _ => ""
  | .ok s => s

/-- Lowercase hex digit test, as the character class `[0-9a-f]` of the
test suite's `uuidV7Regex`. -/
def isLowerHexDigit (c : Char) : Bool :=
  (('0' ≤ c) && (c ≤ '9')) || (('a' ≤ c) && (c ≤ 'f'))

/-- Decision procedure for the test suite's `uuidV7Regex`
`[0-9a-f]{8}-[0-9a-f]{4}-7[0-9a-f]{3}-[89ab][0-9a-f]{3}-[0-9a-f]{12}`
over the string's characters. -/
def matchUUIDv7 (cs : List Char) : Bool :=
  match cs with
  | a0 :: a1 :: a2 :: a3 :: a4 :: a5 :: a6 :: a7 :: h1 ::
    b0 :: b1 :: b2 :: b3 :: h2 ::
    v :: c0 :: c1 :: c2 :: h3 ::
    r :: d0 :: d1 :: d2 :: h4 ::
    e0 :: e1 :: e2 :: e3 :: e4 :: e5 :: e6 :: e7 :: e8 :: e9 :: e10 ::
    e11 :: [] =>
      [a0, a1, a2, a3, a4, a5, a6, a7, b0, b1, b2, b3, c0, c1, c2,
       d0, d1, d2, e0, e1, e2, e3, e4, e5, e6, e7, e8, e9, e10,
       e11].all isLowerHexDigit
        && (h1 == '-') && (h2 == '-') && (h3 == '-') && (h4 == '-')
        && (v == '7')
        && ((r == '8') || (r == '9') || (r == 'a') || (r == 'b'))
  | _ => false

/-- Character of the standard base64 alphabet at an index below 64. -/
def base64Char (n : Nat) : Char :=
  if n < 26 then Char.ofNat (65 + n)
  else if n < 52 then Char.ofNat (97 + (n - 26))
  else if n < 62 then Char.ofNat (48 + (n - 52))
  else if n = 62 then '+'
  else '/'

/-- Standard padded base64 encoding of a byte sequence
(`base64.StdEncoding.EncodeToString`). -/
def base64StdEncodeChars : List Nat → List Char
  | [] => []
  | [a] => [base64Char (a / 4), base64Char (a % 4 * 16), '=', '=']
  | [a, b] => [base64Char (a / 4), base64Char (a % 4 * 16 + b / 16),
               base64Char (b % 16 * 4), '=']
  | a :: b :: c :: rest =>
      [base64Char (a / 4), base64Char (a % 4 * 16 + b / 16),
       base64Char (b % 16 * 4 + c / 64), base64Char (c % 64)] ++
      base64StdEncodeChars rest

/-- Standard padded base64 encoding, as a string. -/
def base64StdEncode (bs : List Nat) : String :=
  String.mk (base64StdEncodeChars bs)

/-- `http.Header.Set`: replace the value of a present key, else append the
pair. Header keys are case-insensitive on the wire; the embedding stores
the keys as the source writes them. -/
def headerSet (req : List (String × String)) (k v : String) :
    List (String × String) :=
  if req.any (fun p => p.1 == k) then
    req.map (fun p => if p.1 == k then (k, v) else p)
  else req ++ [(k, v)]

/-- `http.Header.Get`: first value stored at a key. -/
def headerGet (req : List (String × String)) (k : String) : Option String :=
  (req.find? (fun p => p.1 == k)).map (fun p => p.2)

/-- `setAuthorizationHeader` (auth.go): fresh timestamp and nonce, then the
signature `base64(HMAC-SHA256(secret, token + t + nonce))`, then the five
headers in source order: Authorization, t, sign, nonce, Content-Type.
`hmacSha256 key msg` is the external `crypto/hmac` primitive, returning the
digest bytes; the clocks and the random read are effect parameters. -/
def setAuthorizationHeader (hmacSha256 : String → String → List Nat)
    (token secret : String) (tNow : Int) (nNow : Nat)
    (randResult : Except String (List Nat))
    (req : List (String × String)) : List (String × String) :=
  let t := generateTimestamp tNow
  let n := generateNonce randResult nNow
  let signature := base64StdEncode (hmacSha256 secret (token ++ t ++ n))
  headerSet (headerSet (headerSet (headerSet (headerSet req
    "Authorization" token) "t" t) "sign" signature) "nonce" n)
    "Content-Type" "application/json; charset=utf-8"

/-- `Client` (client.go), generic over the external collaborator types:
`H` the HTTP transport, `E`/`D` the JSON encoder/decoder functions, `U`
parsed URLs. -/
structure Client (H E D U : Type) where
  token : String
  secret : String
  jsonEncoder : E
  jsonDecoder : D
  httpClient : H
  baseURL : U

/-- The `ClientOption` constructors (client.go). A Go `nil` argument is
`none`. -/
inductive ClientOption (H E D : Type) where
  | withHTTPClient (h : Option H)
  | withBaseURL (s : String)
  | withJSONEncoder (e : Option E)
  | withJSONDecoder (d : Option D)

/-- Application of one `ClientOption` (client.go): a nil HTTP client falls
back to the default; a base URL is parsed by the external `url.Parse`
(the `parseURL` parameter) and a parse failure is an error; a nil encoder
or decoder is an error. -/
def applyOption {H E D U : Type} (parseURL : String → Except String U)
    (defaultHTTP : H) (c : Client H E D U) :
    ClientOption H E D → Except String (Client H E D U)
  | .withHTTPClient none => .ok { c with httpClient := defaultHTTP }
  | .withHTTPClient (some h) => .ok { c with httpClient := h }
  | .withBaseURL s =>
      match parseURL s with
      | .error e => .error s!"invalid base URL {s}: {e}"
      | .ok u => .ok { c with baseURL := u }
  | .withJSONEncoder none => .error "JSONEncoder cannot be nil"
  | .withJSONEncoder (some e) => .ok { c with jsonEncoder := e }
  | .withJSONDecoder none => .error "JSONDecoder cannot be nil"
  | .withJSONDecoder (some d) => .ok { c with jsonDecoder := d }

/-- The option loop of `NewClient`: apply options in order, the first
failure aborting with the wrapping message. -/
def applyOptions {H E D U : Type} (parseURL : String → Except String U)
    (defaultHTTP : H) :
    Client H E D U → List (ClientOption H E D) →
    Except String (Client H E D U)
  | c, [] => .ok c
  | c, o :: rest =>
      match applyOption parseURL defaultHTTP c o with
      | .error e => .error s!"failed to apply client option: {e}"
      | .ok c2 => applyOptions parseURL defaultHTTP c2 rest

/-- `NewClient` (client.go): reject empty token or secret, build the
default-configured client (`defaultBase` stands for the parse of the
static `DefaultBaseURL`, whose error the source ignores), then apply the
options. -/
def NewClient {H E D U : Type} (parseURL : String → Except String U)
    (defaultHTTP : H) (defaultEncoder : E) (defaultDecoder : D)
    (defaultBase : U) (token secret : String)
    (options : List (ClientOption H E D)) :
    Except String (Client H E D U) :=
  if token = "" ∨ secret = "" then
    .error "token and secret must not be empty"
  else
    applyOptions parseURL defaultHTTP
      { token := token, secret := secret,
        jsonEncoder := defaultEncoder, jsonDecoder := defaultDecoder,
        httpClient := defaultHTTP, baseURL := defaultBase }
      options

/-- Validity of a `ClientOption`: exactly the options whose application
does not error. -/
def optionValid {H E D U : Type} (parseURL : String → Except String U) :
    ClientOption H E D → Bool
  | .withHTTPClient _ => true
  | .withBaseURL s =>
      match parseURL s with
      | .ok _ => true
      | .error _ => false
  | .withJSONEncoder e => e.isSome
  | .withJSONDecoder d => d.isSome

/-- Outcome of a typed wrapper call: result value, `APIError`, or plain
error, mirroring Go's `(value, error)` with an `error` that may or may not
be an `*APIError`. -/
inductive CallResult (M : Type) where
  | ok (m : M)
  | apiErr (e : APIError)
  | plainErr (msg : String)

/-- `GetDeviceStatus` (devices.go): reject an empty device id, run the
pipeline, and on success unmarshal the envelope body into the status map
only when `isEmptyJSONBody` holds of it, otherwise return a freshly made
empty map. `unmarshalMap` is the external `json.Unmarshal` into a map and
`emptyStatus` the value of `make(DeviceStatus)`. -/
def GetDeviceStatus {M : Type} (unmarshalMap : String → Except String M)
    (emptyStatus : M) (deviceID : String) (pipeline : DoResult) :
    CallResult M :=
  if deviceID = "" then .plainErr "deviceID cannot be empty"
  else
    match pipeline with
    | .apiErr e => .apiErr e
    | .plainErr m => .plainErr m
    | .ok resp =>
      if isEmptyJSONBody resp.body then
        match unmarshalMap resp.body with
        | .error e =>
            .plainErr s!"failed to unmarshal GetDeviceStatus response body: {e}"
        | .ok m => .ok m
      else .ok emptyStatus

/-- `CommandRequest` (devices.go). -/
structure CommandRequest (P : Type) where
  command : String
  commandType : String
  parameter : P

/-- `SendDeviceCommand` (devices.go): reject empty device id or command,
default the parameter to `"default"` (the `defaultParam` value) and the
command type to `"command"`, post the built `CommandRequest` through the
pipeline, and on success unmarshal the body into the response map only
when `isEmptyJSONBody` holds of it, otherwise return a freshly made empty
map. -/
def SendDeviceCommand {M P : Type} (unmarshalMap : String → Except String M)
    (emptyCmdResp : M) (defaultParam : P) (deviceID command : String)
    (parameter : Option P) (commandType : String)
    (pipeline : CommandRequest P → DoResult) : CallResult M :=
  if deviceID = "" then .plainErr "deviceID cannot be empty"
  else if command = "" then .plainErr "command cannot be empty"
  else
    let effectiveParameter := match parameter with
      | none => defaultParam
      | some p => p
    let effectiveCommandType := if commandType = "" then "command" else commandType
    let reqBody : CommandRequest P :=
      { command := command, commandType := effectiveCommandType,
        parameter := effectiveParameter }
    match pipeline reqBody with
    | .apiErr e => .apiErr e
    | .plainErr m => .plainErr m
    | .ok resp =>
      if isEmptyJSONBody resp.body then
        match unmarshalMap resp.body with
        | .error e =>
            .plainErr s!"failed to unmarshal SendDeviceCommand response body: {e}"
        | .ok m => .ok m
      else .ok emptyCmdResp

/-! ## Theorems -/

/-- C5: for a decoded envelope under a transport status below 400 whose
application status code is not 100 and is in the known error set,
`doRequest` returns an `APIError` carrying the envelope's status code,
message and body, with a cause naming the application code. -/
theorem doRequest_known_application_error
    (dec : String → Except String Response) (status : Int) (raw : String)
    (env : Response) (hdec : dec raw = .ok env) (_hstatus : status < 400)
    (hne : env.statusCode ≠ 100)
    (hknown : knownErrorCodes env.statusCode = true) :
    doRequest (.ok ⟨status, raw⟩) dec =
      .apiErr { statusCode := env.statusCode, message := env.message,
                body := env.body,
                err := some s!"received API status code {env.statusCode}" } := by
  simp [doRequest, hdec, hne, hknown]

/-- C5 witness: HTTP 200 with application code 161 and message
"device offline" yields `APIError` with status code 161 and that message. -/
theorem doRequest_known_application_error_witness :
    doRequest (.ok ⟨200, "raw"⟩)
        (fun _ => .ok ⟨161, "device offline", "\x7b\x7d"⟩) =
      .apiErr { statusCode := 161, message := "device offline",
                body := "\x7b\x7d",
                err := some "received API status code 161" } := by
  have h := doRequest_known_application_error
    (fun _ => .ok ⟨161, "device offline", "\x7b\x7d"⟩) 200 "raw"
    ⟨161, "device offline", "\x7b\x7d"⟩ rfl (by decide) (by decide) (by decide)
  simpa using h

/-- C6: for a decoded envelope under a transport status below 400 whose
application status code is neither 100 nor in the known error set,
`doRequest` returns the envelope unchanged with no error. -/
theorem doRequest_unknown_code_passthrough
    (dec : String → Except String Response) (status : Int) (raw : String)
    (env : Response) (hdec : dec raw = .ok env) (hstatus : status < 400)
    (_hne : env.statusCode ≠ 100)
    (hknown : knownErrorCodes env.statusCode = false) :
    doRequest (.ok ⟨status, raw⟩) dec = .ok env := by
  simp [doRequest, hdec, hknown, not_le.mpr hstatus]

/-- C6 witness: HTTP 200 with the unlisted application code 102 passes
the envelope through. -/
theorem doRequest_unknown_code_passthrough_witness :
    doRequest (.ok ⟨200, "raw"⟩)
        (fun _ => .ok ⟨102, "advisory", "\x7b\x7d"⟩) =
      .ok ⟨102, "advisory", "\x7b\x7d"⟩ :=
  doRequest_unknown_code_passthrough
    (fun _ => .ok ⟨102, "advisory", "\x7b\x7d"⟩) 200 "raw"
    ⟨102, "advisory", "\x7b\x7d"⟩ rfl (by decide) (by decide) (by decide)

/-- C7: when the decoder fails on the response body, `doRequest` returns an
`APIError` built from the transport status, a generic message, the raw
bytes and the decode error as cause when the transport status is at least
400, and otherwise a plain error that is not an `APIError`. -/
theorem doRequest_decode_failure
    (dec : String → Except String Response) (status : Int) (raw derr : String)
    (hdec : dec raw = .error derr) :
    (status ≥ 400 → doRequest (.ok ⟨status, raw⟩) dec =
      .apiErr { statusCode := status,
                message := s!"Received HTTP {status} error with unparsable body",
                body := raw, err := some derr }) ∧
    (status < 400 → doRequest (.ok ⟨status, raw⟩) dec =
      .plainErr s!"failed to unmarshal successful response (HTTP {status}) body: {derr}, body: {raw}") ∧
    (status < 400 → ∀ e : APIError,
      doRequest (.ok ⟨status, raw⟩) dec ≠ .apiErr e) := by
  refine ⟨fun h400 => ?_, fun hlt => ?_, fun hlt e => ?_⟩
  · simp [doRequest, hdec, h400]
  · simp [doRequest, hdec, not_le.mpr hlt]
  · simp [doRequest, hdec, not_le.mpr hlt]

/-- C7 witness: decode failure under HTTP 404 yields the transport-status
`APIError`; under HTTP 200 it yields a plain error. -/
theorem doRequest_decode_failure_witness :
    doRequest (.ok ⟨404, "notjson"⟩) (fun _ => .error "bad json") =
      .apiErr { statusCode := 404,
                message := "Received HTTP 404 error with unparsable body",
                body := "notjson", err := some "bad json" } ∧
    doRequest (.ok ⟨200, "notjson"⟩) (fun _ => .error "bad json") =
      .plainErr "failed to unmarshal successful response (HTTP 200) body: bad json, body: notjson" := by
  have h404 := doRequest_decode_failure
    (fun _ => .error "bad json") 404 "notjson" "bad json" rfl
  have h200 := doRequest_decode_failure
    (fun _ => .error "bad json") 200 "notjson" "bad json" rfl
  exact ⟨by simpa using h404.1 (by decide), by simpa using h200.2.1 (by decide)⟩

/-- C1 counterexample: under transport status 401 with a decoded envelope
whose application code 161 is in the known error set, `doRequest` reports
status code 161, not the transport status 401 — the application check runs
first, so a transport status of at least 400 does not take precedence. -/
theorem doRequest_known_code_beats_transport :
    doRequest (.ok ⟨401, "raw"⟩)
        (fun _ => .ok ⟨161, "device offline", "\x7b\x7d"⟩) =
      .apiErr { statusCode := 161, message := "device offline",
                body := "\x7b\x7d",
                err := some "received API status code 161" } ∧
    (161 : Int) ≠ 401 := by
  exact ⟨by decide, by decide⟩

/-- C1 amended: for a decoded envelope whose application code is 100 or
outside the known error set, a transport status of at least 400 yields an
`APIError` with the transport status as status code and the envelope
message, replaced by a non-empty default derived from the transport status
when empty. -/
theorem doRequest_transport_status_precedence
    (dec : String → Except String Response) (status : Int) (raw : String)
    (env : Response) (hdec : dec raw = .ok env) (h400 : status ≥ 400)
    (happ : env.statusCode = 100 ∨ knownErrorCodes env.statusCode = false) :
    doRequest (.ok ⟨status, raw⟩) dec =
      .apiErr { statusCode := status,
                message := if env.message = "" then
                    s!"Received HTTP {status} error"
                  else env.message,
                body := env.body,
                err := some s!"received HTTP status code {status}" } ∧
    (if env.message = "" then s!"Received HTTP {status} error"
      else env.message) ≠ "" := by
  constructor
  · rcases happ with h100 | hout
    · simp [doRequest, hdec, h100, h400]
    · simp [doRequest, hdec, hout, h400]
  · by_cases hmsg : env.message = ""
    · simp only [hmsg, if_pos rfl]
      intro h
      have := congrArg String.length h
      simp [String.length_append] at this
      exact absurd this.1.1 (by decide)
    · simpa [hmsg] using hmsg

/-- C1 amended witness: HTTP 401 with a decoded envelope carrying
application code 100 and an empty message yields an `APIError` with
status code 401 and the non-empty defaulted message. -/
theorem doRequest_transport_status_precedence_witness :
    doRequest (.ok ⟨401, "raw"⟩)
        (fun _ => .ok ⟨100, "", "\x7b\"reason\":\"bad token\"\x7d"⟩) =
      .apiErr { statusCode := 401, message := "Received HTTP 401 error",
                body := "\x7b\"reason\":\"bad token\"\x7d",
                err := some "received HTTP status code 401" } := by
  have h := doRequest_transport_status_precedence
    (fun _ => .ok ⟨100, "", "\x7b\"reason\":\"bad token\"\x7d"⟩) 401 "raw"
    ⟨100, "", "\x7b\"reason\":\"bad token\"\x7d"⟩ rfl (by decide) (Or.inl rfl)
  simpa using h.1

/-- C2: on a fresh request, `setAuthorizationHeader` sets exactly the five
headers Authorization (the token), t, sign, nonce and Content-Type, and the
sign value recomputes as the standard padded base64 of the HMAC-SHA256
digest keyed by the secret over token, then the observed t header value,
then the observed nonce header value. -/
theorem setAuthorizationHeader_five_headers
    (hmacSha256 : String → String → List Nat) (token secret : String)
    (tNow : Int) (nNow : Nat) (randResult : Except String (List Nat))
    (_htoken : token ≠ "") (_hsecret : secret ≠ "") :
    setAuthorizationHeader hmacSha256 token secret tNow nNow randResult [] =
      [("Authorization", token),
       ("t", generateTimestamp tNow),
       ("sign", base64StdEncode (hmacSha256 secret
          (token ++ generateTimestamp tNow ++ generateNonce randResult nNow))),
       ("nonce", generateNonce randResult nNow),
       ("Content-Type", "application/json; charset=utf-8")] ∧
    headerGet (setAuthorizationHeader hmacSha256 token secret tNow nNow
        randResult []) "sign" =
      some (base64StdEncode (hmacSha256 secret (token ++
        (headerGet (setAuthorizationHeader hmacSha256 token secret tNow nNow
          randResult []) "t").getD "" ++
        (headerGet (setAuthorizationHeader hmacSha256 token secret tNow nNow
          randResult []) "nonce").getD ""))) := by
  constructor
  · rfl
  · rfl

/-- C2 witness: concrete non-empty credentials, with a trivial digest
function evaluating the header list explicitly. -/
theorem setAuthorizationHeader_five_headers_witness :
    setAuthorizationHeader (fun _ _ => [77, 97, 110]) "tok" "sec"
        1700000000000 1700000000000
        (.ok [0, 0, 0, 0, 0, 0, 0, 0, 0, 0, 0, 0, 0, 0, 0, 0]) [] =
      [("Authorization", "tok"),
       ("t", "1700000000000"),
       ("sign", "TWFu"),
       ("nonce", "018bcfe5-6800-7000-8000-000000000000"),
       ("Content-Type", "application/json; charset=utf-8")] := by
  have h := (setAuthorizationHeader_five_headers (fun _ _ => [77, 97, 110])
    "tok" "sec" 1700000000000 1700000000000
    (.ok [0, 0, 0, 0, 0, 0, 0, 0, 0, 0, 0, 0, 0, 0, 0, 0])
    (by decide) (by decide)).1
  rw [h]
  decide

/-- C3 counterexample: when the secure random source fails, `getUUIDv7String`
does propagate the failure, but its caller `generateNonce` discards the
error and returns the empty string, which `setAuthorizationHeader` then
attaches as the nonce of a signed request. -/
theorem generateNonce_swallows_failure :
    getUUIDv7String (.error "random source unavailable") 0 =
      .error "random source unavailable" ∧
    generateNonce (.error "random source unavailable") 0 = "" ∧
    headerGet (setAuthorizationHeader (fun _ _ => []) "tok" "sec" 0 0
        (.error "random source unavailable") []) "nonce" = some "" := by
  exact ⟨rfl, rfl, rfl⟩

/-- C3 amended: `getUUIDv7` and `getUUIDv7String` fail rather than fall
back when the random source fails, but `generateNonce` swallows that
failure and yields the empty string, which is then attached as the nonce
header of a signed request. -/
theorem getUUIDv7_failure_propagation
    (e : String) (now : Nat) (hmacSha256 : String → String → List Nat)
    (token secret : String) (tNow : Int) :
    getUUIDv7 (.error e) now = .error e ∧
    getUUIDv7String (.error e) now = .error e ∧
    generateNonce (.error e) now = "" ∧
    headerGet (setAuthorizationHeader hmacSha256 token secret tNow now
        (.error e) []) "nonce" = some "" := by
  exact ⟨rfl, rfl, rfl, rfl⟩

/-- C8: `isEmptyJSONBody` holds exactly of the zero-length body, the
empty-object literal and the null literal — in particular not of arrays,
scalars or non-JSON text — and the display form of `APIError` is the base
rendering, with the body appended exactly when the predicate is false and
the cause appended parenthetically when present. -/
theorem isEmptyJSONBody_spec :
    (∀ b : String, isEmptyJSONBody b = true ↔
      (b.length = 0 ∨ b = "\x7b\x7d" ∨ b = "null")) ∧
    isEmptyJSONBody "[]" = false ∧
    isEmptyJSONBody "[1,2]" = false ∧
    isEmptyJSONBody "0" = false ∧
    isEmptyJSONBody "true" = false ∧
    isEmptyJSONBody "\"x\"" = false ∧
    isEmptyJSONBody "not json" = false ∧
    (∀ e : APIError, APIError.errorString e =
      s!"SwitchBot API error: statusCode={e.statusCode}, message=\x27{e.message}\x27" ++
      (if isEmptyJSONBody e.body then "" else s!", body={e.body}") ++
      (match e.err with
        | some c => s!" (caused by: {c})"
        | none => "")) := by
  refine ⟨fun b => ?_, by decide, by decide, by decide, by decide, by decide,
    by decide, fun e => ?_⟩
  · simp [isEmptyJSONBody, or_assoc]
  · by_cases hb : isEmptyJSONBody e.body <;>
      cases he : e.err <;>
      simp [APIError.errorString, hb, he, String.append_assoc]

/-- C8 witness: a populated body and a cause are both rendered; an
empty-object body is suppressed. -/
theorem isEmptyJSONBody_spec_witness :
    isEmptyJSONBody "[]" = false ∧
    APIError.errorString
        { statusCode := 161, message := "device offline",
          body := "\x7b\"a\":1\x7d", err := some "received API status code 161" } =
      "SwitchBot API error: statusCode=161, message=\x27device offline\x27" ++
      ", body=\x7b\"a\":1\x7d" ++ " (caused by: received API status code 161)" ∧
    APIError.errorString
        { statusCode := 161, message := "device offline",
          body := "\x7b\x7d", err := none } =
      "SwitchBot API error: statusCode=161, message=\x27device offline\x27" ++
      "" ++ "" := by
  refine ⟨isEmptyJSONBody_spec.2.1, ?_, ?_⟩
  · have h := isEmptyJSONBody_spec.2.2.2.2.2.2.2
      { statusCode := 161, message := "device offline",
        body := "\x7b\"a\":1\x7d", err := some "received API status code 161" }
    simpa using h
  · have h := isEmptyJSONBody_spec.2.2.2.2.2.2.2
      { statusCode := 161, message := "device offline",
        body := "\x7b\x7d", err := none }
    simpa using h

/-- C10: in the typed device wrappers, when the pipeline succeeds and the
envelope body is not empty per `isEmptyJSONBody`, both `GetDeviceStatus`
and `SendDeviceCommand` return the freshly made empty map, independent of
the unmarshaller — the body content is discarded — and the unmarshalling
branch runs only when the body is empty per that predicate. -/
theorem deviceCalls_nonempty_body_discarded
    (M P : Type) (u u2 : String → Except String M) (emptyM : M)
    (deviceID command : String) (env : Response) (defaultParam : P)
    (param : Option P) (cmdType : String)
    (pipe : CommandRequest P → DoResult)
    (hdev : deviceID ≠ "") (hcmd : command ≠ "")
    (hbody : isEmptyJSONBody env.body = false)
    (hpipe : ∀ r, pipe r = .ok env) :
    GetDeviceStatus u emptyM deviceID (.ok env) = .ok emptyM ∧
    GetDeviceStatus u emptyM deviceID (.ok env) =
      GetDeviceStatus u2 emptyM deviceID (.ok env) ∧
    SendDeviceCommand u emptyM defaultParam deviceID command param cmdType
      pipe = .ok emptyM ∧
    (∀ env2 : Response, isEmptyJSONBody env2.body = true → ∀ m, u env2.body = .ok m →
      GetDeviceStatus u emptyM deviceID (.ok env2) = .ok m) := by
  refine ⟨?_, ?_, ?_, fun env2 hemp m hm => ?_⟩
  · simp [GetDeviceStatus, hdev, hbody]
  · simp [GetDeviceStatus, hdev, hbody]
  · simp [SendDeviceCommand, hdev, hcmd, hpipe, hbody]
  · simp [GetDeviceStatus, hdev, hemp, hm]

/-- C10 witness: a populated JSON object body is discarded — the
unmarshaller that would return 7 is ignored and the empty map value 0 is
returned — while an empty body goes through the unmarshaller. -/
theorem deviceCalls_nonempty_body_discarded_witness :
    GetDeviceStatus (fun _ => .ok 7) 0 "dev1"
        (.ok ⟨100, "success", "\x7b\"power\":\"on\"\x7d"⟩) = .ok 0 ∧
    SendDeviceCommand (fun _ => .ok 7) 0 () "dev1" "turnOn" none ""
        (fun _ => .ok ⟨100, "success", "\x7b\"power\":\"on\"\x7d"⟩) = .ok 0 ∧
    GetDeviceStatus (fun _ => .ok (7 : Nat)) 0 "dev1"
        (.ok ⟨100, "success", "\x7b\x7d"⟩) = .ok 7 := by
  have h := deviceCalls_nonempty_body_discarded Nat Unit
    (fun _ => .ok 7) (fun _ => .ok 8) 0 "dev1" "turnOn"
    ⟨100, "success", "\x7b\"power\":\"on\"\x7d"⟩ () none ""
    (fun _ => .ok ⟨100, "success", "\x7b\"power\":\"on\"\x7d"⟩)
    (by decide) (by decide) (by decide) (fun _ => rfl)
  exact ⟨h.1, h.2.2.1, h.2.2.2 ⟨100, "success", "\x7b\x7d"⟩ (by decide) 7 rfl⟩

/-- Applying one option never changes the credentials. -/
lemma applyOption_token_secret {H E D U : Type}
    (parseURL : String → Except String U) (dh : H) (c c2 : Client H E D U)
    (o : ClientOption H E D) (h : applyOption parseURL dh c o = .ok c2) :
    c2.token = c.token ∧ c2.secret = c.secret := by
  cases o with
  | withHTTPClient hc =>
      cases hc <;> simp [applyOption] at h <;> subst h <;> exact ⟨rfl, rfl⟩
  | withBaseURL s =>
      cases hp : parseURL s with
      | error e => simp [applyOption, hp] at h
      | ok u => simp [applyOption, hp] at h; subst h; exact ⟨rfl, rfl⟩
  | withJSONEncoder e =>
      cases e with
      | none => simp [applyOption] at h
      | some e => simp [applyOption] at h; subst h; exact ⟨rfl, rfl⟩
  | withJSONDecoder d =>
      cases d with
      | none => simp [applyOption] at h
      | some d => simp [applyOption] at h; subst h; exact ⟨rfl, rfl⟩

/-- One option applies successfully exactly when it is valid. -/
lemma applyOption_ok_iff {H E D U : Type}
    (parseURL : String → Except String U) (dh : H) (c : Client H E D U)
    (o : ClientOption H E D) :
    (∃ c2, applyOption parseURL dh c o = .ok c2) ↔
      optionValid parseURL o = true := by
  cases o with
  | withHTTPClient hc => cases hc <;> simp [applyOption, optionValid]
  | withBaseURL s =>
      cases hp : parseURL s with
      | error e => simp [applyOption, optionValid, hp]
      | ok u => simp [applyOption, optionValid, hp]
  | withJSONEncoder e => cases e <;> simp [applyOption, optionValid]
  | withJSONDecoder d => cases d <;> simp [applyOption, optionValid]

/-- The option loop succeeds exactly when every option is valid. -/
lemma applyOptions_ok_iff {H E D U : Type}
    (parseURL : String → Except String U) (dh : H) :
    ∀ (opts : List (ClientOption H E D)) (c : Client H E D U),
      (∃ c2, applyOptions parseURL dh c opts = .ok c2) ↔
        ∀ o ∈ opts, optionValid parseURL o = true := by
  intro opts
  induction opts with
  | nil => intro c; simp [applyOptions]
  | cons o rest ih =>
      intro c
      cases h : applyOption parseURL dh c o with
      | error e =>
          have hv : ¬ optionValid parseURL o = true := by
            rw [← applyOption_ok_iff parseURL dh c o]
            rintro ⟨c2, hc2⟩
            rw [h] at hc2
            exact Except.noConfusion hc2
          simp [applyOptions, h, hv]
      | ok c2 =>
          have hv : optionValid parseURL o = true :=
            (applyOption_ok_iff parseURL dh c o).mp ⟨c2, h⟩
          simp [applyOptions, h, hv, ih c2]

/-- The option loop never changes the credentials. -/
lemma applyOptions_token_secret {H E D U : Type}
    (parseURL : String → Except String U) (dh : H) :
    ∀ (opts : List (ClientOption H E D)) (c c2 : Client H E D U),
      applyOptions parseURL dh c opts = .ok c2 →
        c2.token = c.token ∧ c2.secret = c.secret := by
  intro opts
  induction opts with
  | nil =>
      intro c c2 h
      simp [applyOptions] at h
      subst h; exact ⟨rfl, rfl⟩
  | cons o rest ih =>
      intro c c2 h
      cases ho : applyOption parseURL dh c o with
      | error e => simp [applyOptions, ho] at h
      | ok cmid =>
          simp [applyOptions, ho] at h
          obtain ⟨h1, h2⟩ := ih cmid c2 h
          obtain ⟨h3, h4⟩ := applyOption_token_secret parseURL dh c cmid o ho
          exact ⟨h1.trans h3, h2.trans h4⟩

/-- C9: `NewClient` succeeds exactly when the token and secret are
non-empty and every supplied option is valid — a base URL override that
parses, no nil encoder, no nil decoder — and a successfully built client
carries the given non-empty credentials, so request-time operations never
fail for these configuration reasons. -/
theorem NewClient_validation (H E D U : Type)
    (parseURL : String → Except String U) (dh : H) (de : E) (dd : D)
    (db : U) (token secret : String)
    (options : List (ClientOption H E D)) :
    ((∃ c, NewClient parseURL dh de dd db token secret options = .ok c) ↔
      (token ≠ "" ∧ secret ≠ "" ∧
        ∀ o ∈ options, optionValid parseURL o = true)) ∧
    (∀ c, NewClient parseURL dh de dd db token secret options = .ok c →
      c.token = token ∧ c.secret = secret ∧ token ≠ "" ∧ secret ≠ "") := by
  by_cases hts : token = "" ∨ secret = ""
  · constructor
    · simp only [NewClient, if_pos hts]
      constructor
      · rintro ⟨c, hc⟩
        exact Except.noConfusion hc
      · rintro ⟨h1, h2, _⟩
        rcases hts with h | h
        · exact absurd h h1
        · exact absurd h h2
    · intro c hc
      simp only [NewClient, if_pos hts] at hc
      exact Except.noConfusion hc
  · push_neg at hts
    constructor
    · simp only [NewClient, if_neg (by tauto : ¬ (token = "" ∨ secret = ""))]
      rw [applyOptions_ok_iff]
      tauto
    · intro c hc
      simp only [NewClient, if_neg (by tauto : ¬ (token = "" ∨ secret = ""))] at hc
      obtain ⟨h1, h2⟩ := applyOptions_token_secret parseURL dh _ _ _ hc
      exact ⟨h1, h2, hts.1, hts.2⟩

/-- C9 witness: with non-empty credentials and a valid encoder override the
construction succeeds; with an empty token, or with a nil decoder override,
it does not. -/
theorem NewClient_validation_witness :
    (∃ c, NewClient (U := Unit) (fun _ => .ok ()) () () () () "tok" "sec"
      [ClientOption.withJSONEncoder (some ())] = .ok c) ∧
    ¬ (∃ c, NewClient (U := Unit) (fun _ => .ok ()) () () () () "" "sec"
      ([] : List (ClientOption Unit Unit Unit)) = .ok c) ∧
    ¬ (∃ c, NewClient (U := Unit) (fun _ => .ok ()) () () () () "tok" "sec"
      [ClientOption.withJSONDecoder (none : Option Unit)] = .ok c) := by
  refine ⟨?_, ?_, ?_⟩
  · exact (NewClient_validation Unit Unit Unit Unit (fun _ => .ok ()) () () ()
      () "tok" "sec" [ClientOption.withJSONEncoder (some ())]).1.mpr
      ⟨by decide, by decide, by intro o ho; simp at ho; subst ho; rfl⟩
  · intro hex
    have h := (NewClient_validation Unit Unit Unit Unit (fun _ => .ok ()) ()
      () () () "" "sec" []).1.mp hex
    exact h.1 rfl
  · intro hex
    have h := (NewClient_validation Unit Unit Unit Unit (fun _ => .ok ()) ()
      () () () "tok" "sec" [ClientOption.withJSONDecoder none]).1.mp hex
    have hv := h.2.2 (ClientOption.withJSONDecoder none) (by simp)
    simp [optionValid] at hv

/-- A lowercase hex digit character arises from any value below 16. -/
lemma hexChar_isLowerHexDigit (n : Nat) (h : n < 16) :
    isLowerHexDigit (hexChar n) = true := by
  interval_cases n <;> decide

/-- The version byte `(b & 0x0F) | 0x70` has high nibble 7. -/
lemma or112_div16 (b : Nat) : ((b &&& 15) ||| 112) / 16 = 7 := by
  have h : b &&& 15 ≤ 15 := Nat.and_le_right
  generalize b &&& 15 = x at h
  interval_cases x <;> decide

/-- The variant byte `(b & 0x3F) | 0x80` has high nibble 8, 9, a or b. -/
lemma variant_char (b : Nat) :
    hexChar (((b &&& 63) ||| 128) / 16) = '8' ∨
    hexChar (((b &&& 63) ||| 128) / 16) = '9' ∨
    hexChar (((b &&& 63) ||| 128) / 16) = 'a' ∨
    hexChar (((b &&& 63) ||| 128) / 16) = 'b' := by
  have h : b &&& 63 ≤ 63 := Nat.and_le_right
  generalize b &&& 63 = x at h
  interval_cases x <;> decide

/-- C4: a successful `getUUIDv7String` call on 16 random bytes returns a
36-character string matching the test suite's UUIDv7 pattern of five
hyphen-separated lowercase-hex groups of 8, 4, 4, 4 and 12 digits, whose
15th character is the version digit 7 and whose 20th character is 8, 9, a
or b, and the value's first 6 bytes are the big-endian millisecond
timestamp, recoverable as the timestamp itself. -/
theorem getUUIDv7String_format
    (b0 b1 b2 b3 b4 b5 b6 b7 b8 b9 b10 b11 b12 b13 b14 b15 now : Nat)
    (h7 : b7 < 256) (h9 : b9 < 256) (h10 : b10 < 256) (h11 : b11 < 256)
    (h12 : b12 < 256) (h13 : b13 < 256) (h14 : b14 < 256) (h15 : b15 < 256)
    (hnow : now < 2 ^ 48) :
    ∃ s : String,
      getUUIDv7String
        (.ok [b0, b1, b2, b3, b4, b5, b6, b7, b8, b9, b10, b11, b12, b13, b14, b15])
        now = .ok s ∧
      s.data.length = 36 ∧
      matchUUIDv7 s.data = true ∧
      s.data[14]? = some '7' ∧
      (s.data[19]? = some '8' ∨ s.data[19]? = some '9' ∨
        s.data[19]? = some 'a' ∨ s.data[19]? = some 'b') ∧
      (uuidV7Transform now
        [b0, b1, b2, b3, b4, b5, b6, b7, b8, b9, b10, b11, b12, b13, b14, b15]).take 6 =
        bigEndian6 now ∧
      beVal6 (bigEndian6 now) = now := by
  refine ⟨String.mk (uuidChars (uuidV7Transform now
    [b0, b1, b2, b3, b4, b5, b6, b7, b8, b9, b10, b11, b12, b13, b14, b15])),
    rfl, ?_, ?_, ?_, ?_, rfl, ?_⟩
  · rfl
  · simp only [uuidChars, uuidV7Transform, bigEndian6, bytesToHexChars,
      byteToHex, List.map, List.flatten, List.take, List.drop,
      List.cons_append, List.nil_append, List.append_nil]
    simp only [matchUUIDv7, List.all, Bool.and_eq_true, beq_iff_eq, Bool.or_eq_true]
    refine ⟨⟨⟨⟨⟨⟨?_, trivial⟩, trivial⟩, trivial⟩, trivial⟩, ?_⟩, ?_⟩
    · repeat' apply And.intro
      all_goals first
        | trivial
        | (apply hexChar_isLowerHexDigit; omega)
    · rw [or112_div16]; decide
    · have := variant_char b8; tauto
  · simp only [uuidChars, uuidV7Transform, bigEndian6, bytesToHexChars,
      byteToHex, List.map, List.flatten, List.take, List.drop,
      List.cons_append, List.nil_append, List.append_nil]
    simp only [List.getElem?_cons_succ, List.getElem?_cons_zero]
    rw [or112_div16]
    decide
  · simp only [uuidChars, uuidV7Transform, bigEndian6, bytesToHexChars,
      byteToHex, List.map, List.flatten, List.take, List.drop,
      List.cons_append, List.nil_append, List.append_nil]
    simp only [List.getElem?_cons_succ, List.getElem?_cons_zero, Option.some_inj]
    have := variant_char b8; tauto
  · simp only [beVal6, bigEndian6]
    omega

/-- C4 witness: concrete random bytes and a concrete millisecond timestamp
satisfy every hypothesis and the format conclusion. -/
theorem getUUIDv7String_format_witness :
    ∃ s : String,
      getUUIDv7String
        (.ok [0, 1, 2, 3, 4, 5, 6, 7, 8, 9, 10, 11, 12, 13, 14, 15])
        1700000000000 = .ok s ∧
      s.data.length = 36 ∧
      matchUUIDv7 s.data = true ∧
      s.data[14]? = some '7' ∧
      (s.data[19]? = some '8' ∨ s.data[19]? = some '9' ∨
        s.data[19]? = some 'a' ∨ s.data[19]? = some 'b') ∧
      (uuidV7Transform 1700000000000
        [0, 1, 2, 3, 4, 5, 6, 7, 8, 9, 10, 11, 12, 13, 14, 15]).take 6 =
        bigEndian6 1700000000000 ∧
      beVal6 (bigEndian6 1700000000000) = 1700000000000 :=
  getUUIDv7String_format 0 1 2 3 4 5 6 7 8 9 10 11 12 13 14 15 1700000000000
    (by decide) (by decide) (by decide) (by decide) (by decide) (by decide)
    (by decide) (by decide) (by decide)

end SwitchBot
